import Mathlib

/-!
Verification development for the FIR download bot (firdl-bot.py).

The source is a Telegram bot that parses chat lines of the shape
`<code> <number>/<year>`, validates them against a static police-station
directory, looks up a permanent MongoDB cache keyed by a canonical string,
fetches a PDF from an upstream HTTP API on a miss, archives it to a log
channel and stores the archive message id in the cache.

The pure core (line parsing, validation, key construction, fetch
classification) is translated directly; the effectful resolver
`process_fir_request` is embedded as a pure function over an explicit
environment describing the outcome of each external call, returning a
trace of the effects it performed.
-/

namespace Firdl

/-! ### Python string helpers -/

/-- Python whitespace class `\s` (ASCII part), also used by `str.strip()`. -/
def isPyWs (c : Char) : Bool :=
  c = ' ' || c = '\t' || c = '\n' || c = '\r' || c = '\x0b' || c = '\x0c'

/-- Python digit class `\d` (ASCII part). -/
def isPyDigit (c : Char) : Bool :=
  '0' ≤ c && c ≤ '9'

/-- The character class `[a-z0-9]` of the request regular expression. -/
def isCodeChar (c : Char) : Bool :=
  ('a' ≤ c && c ≤ 'z') || isPyDigit c

/-- `str.strip()` on a character list: drop whitespace from both ends. -/
def stripChars (cs : List Char) : List Char :=
  ((cs.dropWhile isPyWs).reverse.dropWhile isPyWs).reverse

/-- `str.strip()`. -/
def pyStrip (s : String) : String :=
  (stripChars s.toList).asString

/-- `str.lower()` (ASCII). -/
def pyLower (s : String) : String :=
  (s.toList.map Char.toLower).asString

/-- `int()` on a string of decimal digits. -/
def digitsToNat (cs : List Char) : Nat :=
  cs.foldl (fun a c => 10 * a + (c.toNat - 48)) 0

/-! ### The request regular expression

`re.match(r'^([a-z0-9]+)\s*(\d+)/(\d{4})$', text.lower().strip())`.

Greedy matching with backtracking is embedded explicitly: each
quantified piece tries the longest possible take first and backs off,
exactly as the Python engine does. -/

/-- Try `k n`, then `k (n-1)`, …, down to `k minLen`; first success wins.
This is the backtracking order of a greedy quantifier. -/
def greedyTry {α : Type} (k : Nat → Option α) (minLen : Nat) : Nat → Option α
  | 0 => if minLen = 0 then k 0 else none
  | n + 1 =>
    if n + 1 < minLen then none
    else
      match k (n + 1) with
      | some a => some a
      | none => greedyTry k minLen n

/-- The `/(\d{4})$` tail: after the `(\d+)` group took `k` characters of
`rest2`, the remainder must be a literal `/`, exactly four digits, and the
end of the string; on success the three capture groups are returned. -/
def matchSlashYear (code rest2 : List Char) (k : Nat) :
    Option (List Char × List Char × List Char) :=
  match rest2.drop k with
  | '/' :: y1 :: y2 :: y3 :: y4 :: [] =>
    if isPyDigit y1 && isPyDigit y2 && isPyDigit y3 && isPyDigit y4 then
      some (code, rest2.take k, [y1, y2, y3, y4])
    else none
  | _ => none

/-- The greedy `(\d+)` group: takes `k ≥ 1` digits of `rest2`, longest
first. -/
def matchNum (code rest2 : List Char) : Option (List Char × List Char × List Char) :=
  greedyTry (matchSlashYear code rest2) 1 ((rest2.takeWhile isPyDigit).length)

/-- The greedy `\s*` separator: skips `j ≥ 0` whitespace characters of
`rest1`, longest first. -/
def matchSep (code rest1 : List Char) : Option (List Char × List Char × List Char) :=
  greedyTry (fun j => matchNum code (rest1.drop j)) 0
    ((rest1.takeWhile isPyWs).length)

/-- One candidate for the greedy `([a-z0-9]+)` group: the first `i`
characters of the line form the code group, the rest must match the
remainder of the pattern. -/
def matchCodeAt (cs : List Char) (i : Nat) :
    Option (List Char × List Char × List Char) :=
  matchSep (cs.take i) (cs.drop i)

/-- Full-string match of `^([a-z0-9]+)\s*(\d+)/(\d{4})$`, returning the
three capture groups: the code group tries its longest candidate (the
run of `[a-z0-9]` characters) first and backs off. -/
def reFirMatch (cs : List Char) : Option (List Char × List Char × List Char) :=
  greedyTry (matchCodeAt cs) 1 ((cs.takeWhile isCodeChar).length)

/-! ### Police station data (`psMap`) -/

/-- One entry of the static station directory. -/
structure StationRecord where
  districtCode : String
  psCode : String
  psName : String
  deriving DecidableEq, Repr

/-- The `psMap` dictionary from the source, as an association list in
insertion order. -/
def psMap : List (String × StationRecord) :=
  [ ("ak", ⟨"25810", "25810014", "Amir Khas"⟩),
    ("aw", ⟨"25810", "25810005", "Arniwala"⟩),
    ("bw", ⟨"25810", "25810010", "Bahawala"⟩),
    ("c1a", ⟨"25810", "25810006", "City 1 Abohar"⟩),
    ("c2a", ⟨"25810", "25810007", "City 2 Abohar"⟩),
    ("cf", ⟨"25810", "25810003", "City Fazilka"⟩),
    ("cj", ⟨"25810", "25810001", "City Jalalabad"⟩),
    ("ccf", ⟨"25810", "25810015", "Cyber Crime Fazilka"⟩),
    ("kk", ⟨"25810", "25525037", "Khui Khera"⟩),
    ("ks", ⟨"25810", "25810009", "Khuian Sarwar"⟩),
    ("sa", ⟨"25810", "25810008", "Sadar Abohar"⟩),
    ("sf", ⟨"25810", "25810004", "Sadar Fazilka"⟩),
    ("sj", ⟨"25810", "25810002", "Sadar Jalalabad"⟩),
    ("vk", ⟨"25810", "25810002", "Vairoke"⟩),
    ("ssocf", ⟨"25524", "25810011", "SSOC Fazilka"⟩),
    ("ssoca", ⟨"25524", "25524002", "SSOC Amritsar"⟩),
    ("ssocm", ⟨"25524", "25524002", "SSOC SAS Nagar"⟩) ]

/-- `psMap.get(ps_short_code)`. -/
def psMapGet (code : String) : Option StationRecord :=
  psMap.lookup code

/-! ### Parsing and validation (lines 144–158 of the source) -/

/-- Outcome of the regex match plus the validation block of
`process_fir_request`. -/
inductive Parsed where
  | noMatch
  | invalid (code num year : String)
  | valid (ps : StationRecord) (code num year : String)
  deriving DecidableEq, Repr

/-- `re.match(r'^([a-z0-9]+)\s*(\d+)/(\d{4})$', text.lower().strip())`
followed by the station lookup and the range checks
`1 <= int(fir_number) <= 999` and `2010 <= int(fir_year) <= 2026`. -/
def parseRequest (text : String) : Parsed :=
  match reFirMatch ((pyStrip (pyLower text)).toList) with
  | none => .noMatch
  | some (code, num, year) =>
    match psMapGet code.asString with
    | none => .invalid code.asString num.asString year.asString
    | some ps =>
      if 1 ≤ digitsToNat num ∧ digitsToNat num ≤ 999 ∧
          2010 ≤ digitsToNat year ∧ digitsToNat year ≤ 2026 then
        .valid ps code.asString num.asString year.asString
      else
        .invalid code.asString num.asString year.asString

/-- `fir_key = f"FIR_{ps_short_code}_{fir_number}_{fir_year}"`, built from
the raw matched strings. -/
def firKey (code num year : String) : String :=
  "FIR_" ++ code ++ "_" ++ num ++ "_" ++ year

/-- The canonical cache key computed for an input line, when the line
parses and validates (lines 144–158 of the source). -/
def canonicalKey (text : String) : Option String :=
  match parseRequest text with
  | .valid _ code num year => some (firKey code num year)
  | _ => none

/-! ### Upstream fetch classification (`fetch_fir_from_api`) -/

/-- What the HTTP transport produced: a response, or a raised
`requests.exceptions.RequestException` (whose `e.response` may carry a
status code). -/
inductive HttpResult where
  | response (status : Nat) (contentType : String) (body : List Nat)
  | requestExn (respStatus : Option Nat)
  deriving DecidableEq, Repr

/-- Substring test, modelling Python's `needle in hay`. -/
def hasSubstr (hay needle : List Char) : Bool :=
  match hay with
  | [] => needle.isEmpty
  | _ :: t => needle.isPrefixOf hay || hasSubstr t needle

/-- `fetch_fir_from_api`: `raise_for_status()` raises for 4xx/5xx (caught
as a `RequestException`, returning `(None, status)`); otherwise the
response is a success only if the `Content-Type` header contains
`application/pdf` and the body exceeds 1000 bytes, else `(None, 404)`. -/
def fetch_fir_from_api (r : HttpResult) : Option (List Nat) × Nat :=
  match r with
  | .requestExn st => (none, st.getD 500)
  | .response status ct body =>
    if 400 ≤ status ∧ status < 600 then (none, status)
    else if hasSubstr ct.toList "application/pdf".toList ∧ 1000 < body.length then
      (some body, status)
    else (none, 404)

/-! ### The resolver (`process_fir_request`) as a pure function

External calls are resolved through an explicit environment; the function
returns the trace of effects it performed. An exception raised by an
external call aborts the rest of the function, recorded in `raised`. -/

/-- An exception propagating out of `process_fir_request`. -/
inductive RunError where
  | storage
  | userSend
  | archive
  | cachePut
  deriving DecidableEq, Repr

/-- A message delivered to the requesting chat. -/
inductive UserMsg where
  | invalidFormat (text : String)
  | invalidInput (text : String)
  | copiedDocument (messageId : Nat)
  | freshDocument (content : List Nat) (filename : String)
  | apiError (status : Nat)
  deriving DecidableEq, Repr

/-- `True` on the two parse/validation rejection messages. -/
def UserMsg.isInvalidMsg : UserMsg → Bool
  | .invalidFormat _ => true
  | .invalidInput _ => true
  | _ => false

/-- Outcomes of the external calls a single resolution may perform:
the cache contents and whether `find_one` raises, the HTTP transport
result, and whether the user `send_document`, the log-channel
`send_document` (returning `archiveMessageId`) and the cache
`replace_one` succeed. -/
structure Env where
  cache : List (String × Nat)
  getRaises : Bool
  http : HttpResult
  userSendRaises : Bool
  archiveRaises : Bool
  archiveMessageId : Nat
  putRaises : Bool
  deriving DecidableEq, Repr

/-- Effect trace of one `process_fir_request` call: how many times each
external channel was invoked, the successful cache writes, the messages
delivered to the user chat, and the exception that escaped, if any. -/
structure ProcResult where
  getCalls : Nat
  fetchCalls : Nat
  archiveCalls : Nat
  putCalls : Nat
  puts : List (String × Nat)
  sent : List UserMsg
  raised : Option RunError
  deriving DecidableEq, Repr

/-- `ps_data['psName'].replace(' ', '-')`. -/
def spacesToDashes (s : String) : String :=
  (s.toList.map (fun c => if c = ' ' then '-' else c)).asString

/-- The cache-miss tail of `process_fir_request` (lines 166–184): fetch,
deliver to the user, archive to the log channel, and cache the archive
message id when it is truthy. -/
def missFetchPath (env : Env) (ps : StationRecord) (code num year : String) :
    ProcResult :=
  match fetch_fir_from_api env.http with
  | (some content, st) =>
    if content = [] then ⟨1, 1, 0, 0, [], [.apiError st], none⟩
    else
      let filename :=
        "FIR." ++ num ++ "." ++ year ++ "." ++ spacesToDashes ps.psName ++ ".pdf"
      if env.userSendRaises then ⟨1, 1, 0, 0, [], [], some .userSend⟩
      else if env.archiveRaises then
        ⟨1, 1, 1, 0, [], [.freshDocument content filename], some .archive⟩
      else if env.archiveMessageId = 0 then
        ⟨1, 1, 1, 0, [], [.freshDocument content filename], none⟩
      else if env.putRaises then
        ⟨1, 1, 1, 1, [], [.freshDocument content filename], some .cachePut⟩
      else
        ⟨1, 1, 1, 1, [(firKey code num year, env.archiveMessageId)],
          [.freshDocument content filename], none⟩
  | (none, st) => ⟨1, 1, 0, 0, [], [.apiError st], none⟩

/-- `process_fir_request` (lines 142–184): parse, validate, cache lookup
(`if cached_id:` treats a stored 0 as a miss), and on a miss the fetch /
deliver / archive / cache-store tail. -/
def process_fir_request (env : Env) (text : String) : ProcResult :=
  match parseRequest text with
  | .noMatch => ⟨0, 0, 0, 0, [], [.invalidFormat text], none⟩
  | .invalid _ _ _ => ⟨0, 0, 0, 0, [], [.invalidInput text], none⟩
  | .valid ps code num year =>
    if env.getRaises then ⟨1, 0, 0, 0, [], [], some .storage⟩
    else
      match env.cache.lookup (firKey code num year) with
      | some id =>
        if id = 0 then missFetchPath env ps code num year
        else ⟨1, 0, 0, 0, [], [.copiedDocument id], none⟩
      | none => missFetchPath env ps code num year

/-! ### Message dispatch (`handle_message`) and bulk loop -/

/-- Which path an inbound message takes. -/
inductive MessageAction where
  | noAction
  | single (line : String)
  | bulk (lines : List String)
  deriving DecidableEq, Repr

/-- `str.split('\n')` on a character list: `""` yields one empty piece,
and every newline separates two pieces. -/
def splitOnNl : List Char → List (List Char)
  | [] => [[]]
  | c :: t =>
    let r := splitOnNl t
    if c = '\n' then [] :: r
    else
      match r with
      | h :: t2 => (c :: h) :: t2
      | [] => [[c]]

/-- `[line.strip() for line in text.strip().split('\n') if line.strip()]`. -/
def nonEmptyLines (text : String) : List String :=
  ((splitOnNl (pyStrip text).toList).map
    (fun line => (stripChars line).asString)).filter (fun l => l ≠ "")

/-- `handle_message`: no surviving line → no reply; one line → single
path; two or more → bulk path. -/
def handle_message (text : String) : MessageAction :=
  match nonEmptyLines text with
  | [] => .noAction
  | [l] => .single l
  | l1 :: l2 :: ls => .bulk (l1 :: l2 :: ls)

/-- Result of `handle_bulk_request`: the announced task count, the
per-line traces in the order attempted, and whether the final
completion edit was reached (an exception escaping a line's resolution
aborts the loop before it). -/
structure BulkResult where
  startCount : Nat
  outcomes : List ProcResult
  completionReported : Bool
  deriving DecidableEq, Repr

/-- The `for line in lines` loop of `handle_bulk_request`: each line is
resolved with its environment; an exception propagating out of
`process_fir_request` aborts the remaining lines. -/
def runBulkLines : List (String × Env) → List ProcResult × Bool
  | [] => ([], true)
  | (t, e) :: rest =>
    let r := process_fir_request e t
    match r.raised with
    | some _ => ([r], false)
    | none =>
      let p := runBulkLines rest
      (r :: p.1, p.2)

/-- `handle_bulk_request` (lines 126–140). -/
def handle_bulk_request (items : List (String × Env)) : BulkResult :=
  let p := runBulkLines items
  ⟨items.length, p.1, p.2⟩

/-! ### Claim theorems -/

/-- C1: for a validated request whose canonical key is absent from the
cache, when the upstream fetch succeeds (and the delivery, archive and
cache-write calls themselves succeed, the archive returning a truthy
message id), the resolver makes exactly one archive-channel call and
exactly one cache put, and the stored handle is the handle the archive
call returned. -/
theorem c1_miss_fetch_success_one_archive_one_put
    (env : Env) (text : String) (ps : StationRecord) (code num year : String)
    (content : List Nat) (st : Nat)
    (hp : parseRequest text = .valid ps code num year)
    (hget : env.getRaises = false)
    (hmiss : env.cache.lookup (firKey code num year) = none)
    (hf : fetch_fir_from_api env.http = (some content, st))
    (hc : content ≠ [])
    (hus : env.userSendRaises = false)
    (har : env.archiveRaises = false)
    (hid : env.archiveMessageId ≠ 0)
    (hput : env.putRaises = false) :
    (process_fir_request env text).archiveCalls = 1 ∧
    (process_fir_request env text).putCalls = 1 ∧
    (process_fir_request env text).puts =
      [(firKey code num year, env.archiveMessageId)] := by
  simp only [process_fir_request, hp, hget, hmiss, missFetchPath, hf]
  simp [hc, hus, har, hid, hput]

/-- Environment for the C1 witness: empty cache, a valid PDF response,
all external calls succeeding, archive message id 5. -/
def envC1 : Env :=
  ⟨[], false, .response 200 "application/pdf" (List.replicate 1001 0),
    false, false, 5, false⟩

set_option maxRecDepth 100000 in
/-- C1 witness at the line `cf 123/2025`. -/
theorem c1_witness :
    (process_fir_request envC1 "cf 123/2025").archiveCalls = 1 ∧
    (process_fir_request envC1 "cf 123/2025").putCalls = 1 ∧
    (process_fir_request envC1 "cf 123/2025").puts =
      [(firKey "cf" "123" "2025", envC1.archiveMessageId)] :=
  c1_miss_fetch_success_one_archive_one_put envC1 "cf 123/2025"
    ⟨"25810", "25810003", "City Fazilka"⟩ "cf" "123" "2025"
    (List.replicate 1001 0) 200
    (by decide) rfl (by decide) (by decide) (by decide) rfl rfl (by decide) rfl

/-- C2: for a validated request whose canonical key is present in the
cache (with a truthy stored id), the resolver performs zero upstream
fetch calls and delivers the existing artifact handle. -/
theorem c2_hit_no_fetch
    (env : Env) (text : String) (ps : StationRecord) (code num year : String)
    (id : Nat)
    (hp : parseRequest text = .valid ps code num year)
    (hget : env.getRaises = false)
    (hhit : env.cache.lookup (firKey code num year) = some id)
    (hid : id ≠ 0) :
    (process_fir_request env text).fetchCalls = 0 ∧
    (process_fir_request env text).sent = [.copiedDocument id] := by
  simp only [process_fir_request, hp, hget, hhit]
  simp [hid]

/-- C2 witness: key `FIR_cf_123_2025` cached with handle 77. -/
theorem c2_witness :
    (process_fir_request
      ⟨[("FIR_cf_123_2025", 77)], false, .requestExn none, false, false, 1, false⟩
      "cf 123/2025").fetchCalls = 0 ∧
    (process_fir_request
      ⟨[("FIR_cf_123_2025", 77)], false, .requestExn none, false, false, 1, false⟩
      "cf 123/2025").sent = [.copiedDocument 77] :=
  c2_hit_no_fetch _ "cf 123/2025"
    ⟨"25810", "25810003", "City Fazilka"⟩ "cf" "123" "2025" 77
    (by decide) rfl (by decide) (by decide)

/-- C3: for a validated request whose canonical key is absent from the
cache, when the upstream fetch returns a failure the resolver makes zero
archive-channel calls and zero cache writes, and surfaces only the
failure classification to the caller. -/
theorem c3_miss_fetch_failure_no_archive_no_put
    (env : Env) (text : String) (ps : StationRecord) (code num year : String)
    (st : Nat)
    (hp : parseRequest text = .valid ps code num year)
    (hget : env.getRaises = false)
    (hmiss : env.cache.lookup (firKey code num year) = none)
    (hf : fetch_fir_from_api env.http = (none, st)) :
    process_fir_request env text = ⟨1, 1, 0, 0, [], [.apiError st], none⟩ := by
  simp only [process_fir_request, hp, hget, hmiss, missFetchPath, hf]
  simp

/-- C3 witness: empty cache and an upstream 404-classified response. -/
theorem c3_witness :
    process_fir_request
      ⟨[], false, .response 200 "text/html" [1, 2, 3], false, false, 1, false⟩
      "cf 123/2025" = ⟨1, 1, 0, 0, [], [.apiError 404], none⟩ :=
  c3_miss_fetch_failure_no_archive_no_put _ "cf 123/2025"
    ⟨"25810", "25810003", "City Fazilka"⟩ "cf" "123" "2025" 404
    (by decide) rfl (by decide) (by decide)

/-- C4: for an upstream response accepted with a success status (no
`raise_for_status` exception), the fetch returns the content exactly when
the declared content type contains `application/pdf` and the body strictly
exceeds 1000 bytes; any accepted response failing that gate is classified
`(None, 404)` regardless of the transport status. -/
theorem c4_success_requires_pdf_and_size
    (status : Nat) (ct : String) (body : List Nat)
    (hs : status < 400) :
    ((fetch_fir_from_api (.response status ct body)).1 = some body ↔
      (hasSubstr ct.toList "application/pdf".toList = true ∧ 1000 < body.length)) ∧
    (¬ (hasSubstr ct.toList "application/pdf".toList = true ∧ 1000 < body.length) →
      fetch_fir_from_api (.response status ct body) = (none, 404)) := by
  have h1 : ¬ (400 ≤ status ∧ status < 600) := by omega
  by_cases hg : hasSubstr ct.toList "application/pdf".toList = true ∧ 1000 < body.length
  · have he : fetch_fir_from_api (.response status ct body) = (some body, status) := by
      simp only [fetch_fir_from_api]
      rw [if_neg h1, if_pos hg]
    rw [he]
    exact ⟨iff_of_true rfl hg, fun hn => absurd hg hn⟩
  · have he : fetch_fir_from_api (.response status ct body) = (none, 404) := by
      simp only [fetch_fir_from_api]
      rw [if_neg h1, if_neg hg]
    rw [he]
    exact ⟨iff_of_false (by simp) hg, fun _ => rfl⟩

/-- C4 witness: the spec's example, a 200-status `text/html` 50-byte body,
is classified `(None, 404)`. -/
theorem c4_witness :
    fetch_fir_from_api (.response 200 "text/html" (List.replicate 50 0)) =
      (none, 404) :=
  (c4_success_requires_pdf_and_size 200 "text/html" (List.replicate 50 0)
    (by decide)).2 (by decide)

/-- C6 counterexample: `cf 7/2025` and `cf 007/2025` validate to the same
station record and the same integer case number and year, but the cache
key is built from the raw matched digit strings, so the two lines produce
different canonical keys. -/
theorem c6_counterexample :
    parseRequest "cf 7/2025" =
      .valid ⟨"25810", "25810003", "City Fazilka"⟩ "cf" "7" "2025" ∧
    parseRequest "cf 007/2025" =
      .valid ⟨"25810", "25810003", "City Fazilka"⟩ "cf" "007" "2025" ∧
    digitsToNat "7".toList = digitsToNat "007".toList ∧
    digitsToNat "2025".toList = digitsToNat "2025".toList ∧
    canonicalKey "cf 7/2025" = some "FIR_cf_7_2025" ∧
    canonicalKey "cf 007/2025" = some "FIR_cf_007_2025" ∧
    canonicalKey "cf 7/2025" ≠ canonicalKey "cf 007/2025" := by decide

/-- C6 (amended): the canonical key is a deterministic function of the
matched string groups (station code string, case-number digit string,
year digit string): two lines with the same parse produce the same key.
Digit strings that differ only in leading zeros denote the same integer
but give different keys. -/
theorem c6_amended_key_deterministic_in_groups (t1 t2 : String)
    (h : parseRequest t1 = parseRequest t2) :
    canonicalKey t1 = canonicalKey t2 := by
  unfold canonicalKey
  rw [h]

/-- C6 amended witness: upper-case and extra interior whitespace do not
change the parse, hence not the key. -/
theorem c6_amended_witness :
    canonicalKey "cf 1/2025" = canonicalKey "CF  1/2025" :=
  c6_amended_key_deterministic_in_groups "cf 1/2025" "CF  1/2025" (by decide)

/-- C7 counterexample: for the line `cf123/2025` (known code `cf`
immediately followed by case number 123) the greedy code group absorbs
all but the last digit: the regex yields groups `cf12`, `3`, `2025`;
`cf12` is not a known station, so the line is rejected as invalid input
instead of producing the request for station `cf`, case 123. -/
theorem c7_counterexample :
    psMapGet "cf" = some ⟨"25810", "25810003", "City Fazilka"⟩ ∧
    reFirMatch "cf123/2025".toList =
      some ("cf12".toList, "3".toList, "2025".toList) ∧
    psMapGet "cf12" = none ∧
    parseRequest "cf123/2025" = .invalid "cf12" "3" "2025" ∧
    canonicalKey "cf123/2025" = none := by decide

/-- Helper: a greedy quantifier with a positive minimum and nothing left
to take fails. -/
theorem greedyTry_zero {α : Type} (k : Nat → Option α) :
    greedyTry k 1 0 = none := rfl

/-- Helper: a failing longest candidate makes the greedy quantifier back
off by one. -/
theorem greedyTry_skip {α : Type} (k : Nat → Option α) (minLen n : Nat)
    (hmin : ¬ n < minLen) (hpos : 0 < n) (hk : k n = none) :
    greedyTry k minLen n = greedyTry k minLen (n - 1) := by
  cases n with
  | zero => omega
  | succ m =>
    rw [Nat.add_sub_cancel]
    conv_lhs => unfold greedyTry
    rw [if_neg hmin, hk]

/-- Helper: a succeeding candidate is returned by the greedy quantifier. -/
theorem greedyTry_hit {α : Type} (k : Nat → Option α) (minLen n : Nat) (v : α)
    (hmin : ¬ n < minLen) (hpos : 0 < n) (hk : k n = some v) :
    greedyTry k minLen n = some v := by
  cases n with
  | zero => omega
  | succ m =>
    unfold greedyTry
    rw [if_neg hmin, hk]

/-- Helper: `takeWhile` passes over a fully satisfying prefix. -/
theorem takeWhile_append_all {p : Char → Bool} (a b : List Char)
    (h : ∀ c ∈ a, p c = true) :
    (a ++ b).takeWhile p = a ++ b.takeWhile p := by
  induction a with
  | nil => simp
  | cons hd tl ih =>
    rw [List.cons_append, List.takeWhile_cons_of_pos (h hd (List.mem_cons_self _ _)),
      ih (fun c hc => h c (List.mem_cons_of_mem _ hc))]
    rfl

/-- Helper: a decimal digit is not whitespace. -/
theorem digit_not_ws (c : Char) (h : isPyDigit c = true) : isPyWs c = false := by
  cases hw : isPyWs c
  · rfl
  · exfalso
    simp only [isPyWs, Bool.or_eq_true, decide_eq_true_eq] at hw
    rcases hw with ((((rfl | rfl) | rfl) | rfl) | rfl) | rfl <;>
      exact absurd h (by decide)

/-- Helper: the greedy regular expression on a line of the shape
`<code chars><digit>/<4 digits>` (no whitespace) backs the code group off
exactly one character: the match succeeds with the whole leading run
except the final digit as the code group and that digit as the number
group. -/
theorem reFirMatch_code_digit (a : List Char) (d y1 y2 y3 y4 : Char)
    (ha : a ≠ [])
    (hcode : ∀ c ∈ a, isCodeChar c = true)
    (hd : isPyDigit d = true)
    (hy1 : isPyDigit y1 = true) (hy2 : isPyDigit y2 = true)
    (hy3 : isPyDigit y3 = true) (hy4 : isPyDigit y4 = true) :
    reFirMatch (a ++ d :: '/' :: [y1, y2, y3, y4]) =
      some (a, [d], [y1, y2, y3, y4]) := by
  have hcd : isCodeChar d = true := by simp [isCodeChar, hd]
  have hsc : isCodeChar '/' = false := by decide
  have hsd : isPyDigit '/' = false := by decide
  have hsw : isPyWs '/' = false := by decide
  have hdw : isPyWs d = false := digit_not_ws d hd
  have hassoc : a ++ d :: '/' :: [y1, y2, y3, y4] =
      (a ++ [d]) ++ '/' :: [y1, y2, y3, y4] := by simp
  have hlena : (a ++ [d]).length = a.length + 1 := by simp
  have hrun : (a ++ d :: '/' :: [y1, y2, y3, y4]).takeWhile isCodeChar
      = a ++ [d] := by
    rw [takeWhile_append_all a _ hcode, List.takeWhile_cons_of_pos hcd,
      List.takeWhile_cons_of_neg (by simp [hsc])]
  have htake1 : (a ++ d :: '/' :: [y1, y2, y3, y4]).take (a.length + 1)
      = a ++ [d] := by
    rw [hassoc, ← hlena, List.take_left]
  have hdrop1 : (a ++ d :: '/' :: [y1, y2, y3, y4]).drop (a.length + 1)
      = '/' :: [y1, y2, y3, y4] := by
    rw [hassoc, ← hlena, List.drop_left]
  have hfail : matchCodeAt (a ++ d :: '/' :: [y1, y2, y3, y4]) (a.length + 1)
      = none := by
    unfold matchCodeAt
    rw [htake1, hdrop1]
    unfold matchSep
    rw [List.takeWhile_cons_of_neg (by simp [hsw])]
    show matchNum (a ++ [d]) (('/' :: [y1, y2, y3, y4]).drop 0) = none
    rw [List.drop_zero]
    unfold matchNum
    rw [List.takeWhile_cons_of_neg (by simp [hsd])]
    rfl
  have htake0 : (a ++ d :: '/' :: [y1, y2, y3, y4]).take a.length = a :=
    List.take_left a _
  have hdrop0 : (a ++ d :: '/' :: [y1, y2, y3, y4]).drop a.length
      = d :: '/' :: [y1, y2, y3, y4] :=
    List.drop_left a _
  have hslash : matchSlashYear a (d :: '/' :: [y1, y2, y3, y4]) 1
      = some (a, [d], [y1, y2, y3, y4]) := by
    unfold matchSlashYear
    simp [hy1, hy2, hy3, hy4]
  have hhit : matchCodeAt (a ++ d :: '/' :: [y1, y2, y3, y4]) a.length
      = some (a, [d], [y1, y2, y3, y4]) := by
    unfold matchCodeAt
    rw [htake0, hdrop0]
    unfold matchSep
    rw [List.takeWhile_cons_of_neg (by simp [hdw])]
    show matchNum a ((d :: '/' :: [y1, y2, y3, y4]).drop 0)
      = some (a, [d], [y1, y2, y3, y4])
    rw [List.drop_zero]
    unfold matchNum
    rw [List.takeWhile_cons_of_pos hd,
      List.takeWhile_cons_of_neg (by simp [hsd])]
    show greedyTry (matchSlashYear a (d :: '/' :: [y1, y2, y3, y4])) 1 1
      = some (a, [d], [y1, y2, y3, y4])
    exact greedyTry_hit _ 1 1 _ (by omega) (by omega) hslash
  have hl : 0 < a.length := List.length_pos.mpr ha
  unfold reFirMatch
  rw [hrun, hlena,
    greedyTry_skip (matchCodeAt (a ++ d :: '/' :: [y1, y2, y3, y4])) 1
      (a.length + 1) (by omega) (by omega) hfail]
  simp only [Nat.add_sub_cancel]
  exact greedyTry_hit _ 1 a.length _ (by omega) hl hhit

/-- C7 (amended): a known station code immediately followed by the case
number with no whitespace is accepted with that code and that number
exactly when the case number is a single digit: the greedy code group
backs off one character, so the line parses with code group = the given
code and number group = that digit, and (for a known code and in-range
digit and year, on a line already in stripped lower-case form) the
canonical key for that station and single-digit number is produced. With
two or more digits the code group absorbs all but the last digit, as the
counterexample shows. -/
theorem c7_amended_single_digit_no_space
    (a : List Char) (ps : StationRecord) (d y1 y2 y3 y4 : Char)
    (ha : a ≠ [])
    (hcode : ∀ c ∈ a, isCodeChar c = true)
    (hd : isPyDigit d = true)
    (hy1 : isPyDigit y1 = true) (hy2 : isPyDigit y2 = true)
    (hy3 : isPyDigit y3 = true) (hy4 : isPyDigit y4 = true)
    (hfix : (pyStrip (pyLower (a ++ d :: '/' :: [y1, y2, y3, y4]).asString)).toList
      = a ++ d :: '/' :: [y1, y2, y3, y4])
    (hps : psMapGet a.asString = some ps)
    (hnum1 : 1 ≤ digitsToNat [d])
    (hnum2 : digitsToNat [d] ≤ 999)
    (hyrlo : 2010 ≤ digitsToNat [y1, y2, y3, y4])
    (hyrhi : digitsToNat [y1, y2, y3, y4] ≤ 2026) :
    reFirMatch (a ++ d :: '/' :: [y1, y2, y3, y4]) =
      some (a, [d], [y1, y2, y3, y4]) ∧
    canonicalKey (a ++ d :: '/' :: [y1, y2, y3, y4]).asString =
      some (firKey a.asString [d].asString [y1, y2, y3, y4].asString) := by
  have hmatch := reFirMatch_code_digit a d y1 y2 y3 y4 ha hcode hd hy1 hy2 hy3 hy4
  refine ⟨hmatch, ?_⟩
  have hpr : parseRequest (a ++ d :: '/' :: [y1, y2, y3, y4]).asString =
      .valid ps a.asString [d].asString [y1, y2, y3, y4].asString := by
    unfold parseRequest
    rw [hfix]
    simp only [hmatch]
    simp only [hps]
    rw [if_pos ⟨hnum1, hnum2, hyrlo, hyrhi⟩]
  unfold canonicalKey
  simp only [hpr]

/-- C7 amended witness at the line `cf1/2025`. -/
theorem c7_amended_witness :
    reFirMatch ("cf".toList ++ '1' :: '/' :: ['2', '0', '2', '5']) =
      some ("cf".toList, ['1'], ['2', '0', '2', '5']) ∧
    canonicalKey ("cf".toList ++ '1' :: '/' :: ['2', '0', '2', '5']).asString =
      some (firKey "cf".toList.asString ['1'].asString ['2', '0', '2', '5'].asString) :=
  c7_amended_single_digit_no_space "cf".toList
    ⟨"25810", "25810003", "City Fazilka"⟩ '1' '2' '0' '2' '5'
    (by decide) (by decide) (by decide) (by decide) (by decide) (by decide)
    (by decide) (by decide) (by decide) (by decide) (by decide)
    (by decide) (by decide)

/-- Helper: the cache-miss tail never emits a parse/validation rejection
message. -/
theorem missFetchPath_sent_not_invalid (env : Env) (ps : StationRecord)
    (code num year : String) :
    ∀ m ∈ (missFetchPath env ps code num year).sent, m.isInvalidMsg = false := by
  unfold missFetchPath
  rcases hf : fetch_fir_from_api env.http with ⟨pdf, st⟩
  rcases pdf with _ | content
  · simp [UserMsg.isInvalidMsg]
  · by_cases hc : content = []
    · simp [hc, UserMsg.isInvalidMsg]
    · by_cases hus : env.userSendRaises = true
      · simp [hc, hus]
      · by_cases har : env.archiveRaises = true
        · simp [hc, hus, har, UserMsg.isInvalidMsg]
        · by_cases hid : env.archiveMessageId = 0
          · simp [hc, hus, har, hid, UserMsg.isInvalidMsg]
          · by_cases hput : env.putRaises = true
            · simp [hc, hus, har, hid, hput, UserMsg.isInvalidMsg]
            · simp [hc, hus, har, hid, hput, UserMsg.isInvalidMsg]

/-- C5: error taxonomy of the parse/validation stage. A line that does
not match the regex is answered with the invalid-format message, a line
that matches but fails validation (unknown station code, case number
outside 1..999, year outside 2010..2026) with the invalid-input message;
in both cases no cache read, fetch, archive or cache write happens; a
line that validates never receives either rejection message. -/
theorem c5_error_taxonomy (env : Env) (text : String) :
    (parseRequest text = .noMatch →
      process_fir_request env text =
        ⟨0, 0, 0, 0, [], [.invalidFormat text], none⟩) ∧
    (∀ code num year, parseRequest text = .invalid code num year →
      process_fir_request env text =
        ⟨0, 0, 0, 0, [], [.invalidInput text], none⟩) ∧
    (parseRequest text = .noMatch ↔
      reFirMatch ((pyStrip (pyLower text)).toList) = none) ∧
    (∀ code num year,
      reFirMatch ((pyStrip (pyLower text)).toList) = some (code, num, year) →
      (parseRequest text = .invalid code.asString num.asString year.asString ↔
        (psMapGet code.asString = none ∨ digitsToNat num < 1 ∨
         999 < digitsToNat num ∨ digitsToNat year < 2010 ∨
         2026 < digitsToNat year))) ∧
    (∀ ps code num year, parseRequest text = .valid ps code num year →
      ∀ m ∈ (process_fir_request env text).sent, m.isInvalidMsg = false) := by
  refine ⟨?_, ?_, ?_, ?_, ?_⟩
  · intro h
    simp [process_fir_request, h]
  · intro code num year h
    simp [process_fir_request, h]
  · unfold parseRequest
    split
    · rename_i heq
      constructor
      · intro _
        exact heq
      · intro _
        rfl
    · rename_i c n y heq
      rw [heq]
      constructor
      · intro h
        exfalso
        revert h
        split
        · simp
        · split <;> simp
      · intro h
        exact Option.noConfusion h
  · intro code num year hm
    unfold parseRequest
    rw [hm]
    show (match psMapGet code.asString with
      | none => Parsed.invalid code.asString num.asString year.asString
      | some ps =>
        if 1 ≤ digitsToNat num ∧ digitsToNat num ≤ 999 ∧
            2010 ≤ digitsToNat year ∧ digitsToNat year ≤ 2026 then
          Parsed.valid ps code.asString num.asString year.asString
        else Parsed.invalid code.asString num.asString year.asString) =
        Parsed.invalid code.asString num.asString year.asString ↔ _
    split
    · rename_i heq
      simp [heq]
    · rename_i ps heq
      rw [heq]
      by_cases hr : 1 ≤ digitsToNat num ∧ digitsToNat num ≤ 999 ∧
          2010 ≤ digitsToNat year ∧ digitsToNat year ≤ 2026
      · rw [if_pos hr]
        constructor
        · intro h
          exact absurd h (by simp)
        · intro h
          exfalso
          rcases h with h | h | h | h | h
          · exact Option.noConfusion h
          all_goals omega
      · rw [if_neg hr]
        constructor
        · intro _
          exact Or.inr (by omega)
        · intro _
          rfl
  · intro ps code num year h
    simp only [process_fir_request, h]
    by_cases hg : env.getRaises = true
    · simp [hg]
    · rw [if_neg hg]
      rcases hl : env.cache.lookup (firKey code num year) with _ | id
      · exact missFetchPath_sent_not_invalid env ps code num year
      · by_cases hid : id = 0
        · simpa [hid] using missFetchPath_sent_not_invalid env ps code num year
        · simp [hid, UserMsg.isInvalidMsg]


/-- C5 witness: a line not matching the grammar is rejected as invalid
format, a structurally valid line with an unknown station code as invalid
input; neither touches the cache or the network. -/
theorem c5_witness :
    process_fir_request ⟨[], false, .requestExn none, false, false, 1, false⟩
      "hello!" = ⟨0, 0, 0, 0, [], [.invalidFormat "hello!"], none⟩ ∧
    process_fir_request ⟨[], false, .requestExn none, false, false, 1, false⟩
      "zz 1/2020" = ⟨0, 0, 0, 0, [], [.invalidInput "zz 1/2020"], none⟩ :=
  ⟨(c5_error_taxonomy ⟨[], false, .requestExn none, false, false, 1, false⟩
      "hello!").1 (by decide),
   (c5_error_taxonomy ⟨[], false, .requestExn none, false, false, 1, false⟩
      "zz 1/2020").2.1 "zz" "1" "2020" (by decide)⟩

/-- Environment in which the fetch and the archive succeed but the cache
write raises. -/
def envPutFail : Env :=
  ⟨[], false, .response 200 "application/pdf" (List.replicate 1001 7),
    false, false, 9, true⟩

set_option maxRecDepth 100000 in
/-- C9 counterexample: when the cache write fails after a successful
fetch and archive, the exception escapes the resolver (`raised` carries
the cache-write error), so the resolution does not complete as a success
for the caller; the failure is not confined to observability. The
user-facing delivery had already happened. -/
theorem c9_counterexample :
    (process_fir_request envPutFail "cf 1/2025").raised = some .cachePut ∧
    (process_fir_request envPutFail "cf 1/2025").sent =
      [.freshDocument (List.replicate 1001 7) "FIR.1.2025.City-Fazilka.pdf"] := by
  decide

/-- C9 (amended): a cache-write failure happens after the user-visible
delivery, so the user still receives the document and no cache entry is
stored; but the failure is not swallowed and only logged — it propagates
to the caller as an exception. -/
theorem c9_amended_put_failure_after_delivery
    (env : Env) (text : String) (ps : StationRecord) (code num year : String)
    (content : List Nat) (st : Nat)
    (hp : parseRequest text = .valid ps code num year)
    (hget : env.getRaises = false)
    (hmiss : env.cache.lookup (firKey code num year) = none)
    (hf : fetch_fir_from_api env.http = (some content, st))
    (hc : content ≠ [])
    (hus : env.userSendRaises = false)
    (har : env.archiveRaises = false)
    (hid : env.archiveMessageId ≠ 0)
    (hput : env.putRaises = true) :
    (process_fir_request env text).sent =
      [.freshDocument content
        ("FIR." ++ num ++ "." ++ year ++ "." ++ spacesToDashes ps.psName ++ ".pdf")] ∧
    (process_fir_request env text).puts = [] ∧
    (process_fir_request env text).raised = some .cachePut := by
  simp only [process_fir_request, hp, hget, hmiss, missFetchPath, hf]
  simp [hc, hus, har, hid, hput]

set_option maxRecDepth 100000 in
/-- C9 amended witness. -/
theorem c9_amended_witness :
    (process_fir_request envPutFail "cf 1/2025").sent =
      [.freshDocument (List.replicate 1001 7)
        ("FIR." ++ "1" ++ "." ++ "2025" ++ "." ++
          spacesToDashes "City Fazilka" ++ ".pdf")] ∧
    (process_fir_request envPutFail "cf 1/2025").puts = [] ∧
    (process_fir_request envPutFail "cf 1/2025").raised = some .cachePut :=
  c9_amended_put_failure_after_delivery envPutFail "cf 1/2025"
    ⟨"25810", "25810003", "City Fazilka"⟩ "cf" "1" "2025"
    (List.replicate 1001 7) 200
    (by decide) rfl (by decide) (by decide) (by decide) rfl rfl (by decide) rfl

/-- Helper: when no line's resolution raises an exception, the bulk loop
visits every line in order and reaches the completion edit. -/
theorem runBulkLines_no_raise (items : List (String × Env))
    (h : ∀ te ∈ items, (process_fir_request te.2 te.1).raised = none) :
    runBulkLines items =
      (items.map (fun te => process_fir_request te.2 te.1), true) := by
  induction items with
  | nil => rfl
  | cons hd tl ih =>
    obtain ⟨t, e⟩ := hd
    have h1 : (process_fir_request e t).raised = none :=
      h (t, e) (List.mem_cons_self _ _)
    have h2 : ∀ te ∈ tl, (process_fir_request te.2 te.1).raised = none :=
      fun te ht => h te (List.mem_cons_of_mem _ ht)
    simp only [runBulkLines, h1, ih h2, List.map_cons]

/-- Environment whose cache read raises (storage unavailable). -/
def envStorageFail : Env :=
  ⟨[], true, .requestExn none, false, false, 1, false⟩

/-- Environment whose upstream fetch fails with a transport error. -/
def envFetchFail : Env :=
  ⟨[], false, .requestExn none, false, false, 1, false⟩

/-- C8 counterexample: a two-line batch whose first line hits a
storage-read error produces only one outcome and never reports
completion — the second line is not attempted, contradicting the claim
that a storage-read or archive error on a line does not prevent the
remaining lines from being attempted. -/
theorem c8_counterexample :
    (handle_bulk_request
      [("cf 1/2025", envStorageFail), ("cf 2/2025", envFetchFail)]).startCount = 2 ∧
    (handle_bulk_request
      [("cf 1/2025", envStorageFail), ("cf 2/2025", envFetchFail)]).outcomes.length = 1 ∧
    (handle_bulk_request
      [("cf 1/2025", envStorageFail),
        ("cf 2/2025", envFetchFail)]).completionReported = false ∧
    (process_fir_request envStorageFail "cf 1/2025").raised = some .storage := by
  decide

/-- C8 (amended): lines whose failures the resolver handles internally
(invalid format, invalid input, fetch failure) are isolated: when no
line's resolution raises an external-call exception, every line of the
batch is attempted, producing exactly one outcome per line in input
order, and the completion signal is reported. A storage-read, delivery,
archive or cache-write exception on a line aborts the remaining lines
and the completion signal. -/
theorem c8_amended_handled_failures_isolated (items : List (String × Env))
    (h : ∀ te ∈ items, (process_fir_request te.2 te.1).raised = none) :
    (handle_bulk_request items).startCount = items.length ∧
    (handle_bulk_request items).outcomes =
      items.map (fun te => process_fir_request te.2 te.1) ∧
    (handle_bulk_request items).completionReported = true := by
  simp only [handle_bulk_request, runBulkLines_no_raise items h]
  exact ⟨trivial, trivial, trivial⟩

/-- C8 amended witness: an invalid-format line followed by a
fetch-failure line still yields two outcomes in order plus completion. -/
theorem c8_amended_witness :
    (handle_bulk_request
      [("nonsense", envFetchFail), ("cf 2/2025", envFetchFail)]).outcomes =
      [process_fir_request envFetchFail "nonsense",
       process_fir_request envFetchFail "cf 2/2025"] ∧
    (handle_bulk_request
      [("nonsense", envFetchFail),
        ("cf 2/2025", envFetchFail)]).completionReported = true :=
  ⟨(c8_amended_handled_failures_isolated
      [("nonsense", envFetchFail), ("cf 2/2025", envFetchFail)] (by decide)).2.1,
   (c8_amended_handled_failures_isolated
      [("nonsense", envFetchFail), ("cf 2/2025", envFetchFail)] (by decide)).2.2⟩

/-- Helper: dropping a satisfied predicate from a list it fully satisfies
leaves nothing. -/
theorem stripChars_all_ws (cs : List Char) (h : ∀ c ∈ cs, isPyWs c = true) :
    stripChars cs = [] := by
  unfold stripChars
  have h1 : cs.dropWhile isPyWs = [] := by
    induction cs with
    | nil => rfl
    | cons hd tl ih =>
      rw [List.dropWhile_cons_of_pos (h hd (List.mem_cons_self _ _))]
      exact ih (fun c hc => h c (List.mem_cons_of_mem _ hc))
  rw [h1]
  rfl

/-- C10: the inbound dispatcher strips lines and drops whitespace-only
ones before counting: no surviving line → no action and no reply; exactly
one surviving line → the single-resolution path on that stripped line;
two or more → the bulk path on the surviving lines; in particular a
message of pure whitespace produces no action. -/
theorem c10_dispatch_counts (text : String) :
    (nonEmptyLines text = [] → handle_message text = .noAction) ∧
    (∀ l, nonEmptyLines text = [l] → handle_message text = .single l) ∧
    (∀ l1 l2 ls, nonEmptyLines text = l1 :: l2 :: ls →
      handle_message text = .bulk (l1 :: l2 :: ls)) ∧
    ((∀ c ∈ text.toList, isPyWs c = true) → handle_message text = .noAction) := by
  refine ⟨?_, ?_, ?_, ?_⟩
  · intro h
    simp [handle_message, h]
  · intro l h
    simp [handle_message, h]
  · intro l1 l2 ls h
    simp [handle_message, h]
  · intro h
    have hstrip : pyStrip text = "" := by
      unfold pyStrip
      rw [stripChars_all_ws text.toList h]
      rfl
    have hlines : nonEmptyLines text = [] := by
      unfold nonEmptyLines
      rw [hstrip]
      decide
    simp [handle_message, hlines]

/-- C10 witness: a blank-padded single line, a two-line message, and a
pure-whitespace message. -/
theorem c10_witness :
    handle_message " \n cf 1/2025 \n " = .single "cf 1/2025" ∧
    handle_message "cf 1/2025\ncf 2/2025" = .bulk ["cf 1/2025", "cf 2/2025"] ∧
    handle_message " \n\t " = .noAction :=
  ⟨(c10_dispatch_counts " \n cf 1/2025 \n ").2.1 "cf 1/2025" (by decide),
   (c10_dispatch_counts "cf 1/2025\ncf 2/2025").2.2.1
      "cf 1/2025" "cf 2/2025" [] (by decide),
   (c10_dispatch_counts " \n\t ").2.2.2 (by decide)⟩

end Firdl

